import Mathlib

/-!
Verification of the medinify sentiment-evaluation core
(`medinify/sentiment/review_classifier.py` and
`medinify/sentiment/cnn_review_classifier.py`) against its
natural-language specification.

The metrics engine, threshold labeler and aggregation logic are embedded
shallowly: numpy float scalars become exact extended rationals (`PyVal`),
sklearn's `confusion_matrix` becomes an explicit count table over the
sorted distinct observed labels, out-of-range matrix indexing (Python
`IndexError`) becomes `Option.none`, and the external text-processing
collaborator (NLTK tokenization / stop-word removal) is abstracted as a
`clean : String → String` parameter.
-/

namespace Medinify

/-- Model of a numpy float scalar value: a finite (exact) rational,
positive or negative infinity, or NaN.  numpy scalar division by zero
emits only a `RuntimeWarning` and evaluates to `±inf` (nonzero numerator)
or `nan` (zero numerator); it never raises an exception.  Exact rational
arithmetic stands in for IEEE-754 rounding, which the spec treats as real
arithmetic. -/
inductive PyVal where
  | fin (q : ℚ)
  | inf
  | neginf
  | nan
deriving DecidableEq, Repr

namespace PyVal

/-- Addition of numpy float scalars (`nan` absorbs; `inf + -inf = nan`). -/
def add : PyVal → PyVal → PyVal
  | fin a, fin b => fin (a + b)
  | fin _, inf => inf
  | inf, fin _ => inf
  | inf, inf => inf
  | fin _, neginf => neginf
  | neginf, fin _ => neginf
  | neginf, neginf => neginf
  | _, _ => nan

/-- Multiplication of numpy float scalars (`0 * ±inf = nan`, `nan` absorbs). -/
def mul : PyVal → PyVal → PyVal
  | fin a, fin b => fin (a * b)
  | fin a, inf => if 0 < a then inf else if a < 0 then neginf else nan
  | inf, fin a => if 0 < a then inf else if a < 0 then neginf else nan
  | fin a, neginf => if 0 < a then neginf else if a < 0 then inf else nan
  | neginf, fin a => if 0 < a then neginf else if a < 0 then inf else nan
  | inf, inf => inf
  | inf, neginf => neginf
  | neginf, inf => neginf
  | neginf, neginf => inf
  | _, _ => nan

/-- Division of numpy float scalars: division by zero yields `inf`,
`neginf` or `nan` depending on the numerator's sign; no exception. -/
def div : PyVal → PyVal → PyVal
  | fin a, fin b =>
      if b ≠ 0 then fin (a / b)
      else if 0 < a then inf else if a < 0 then neginf else nan
  | fin _, inf => fin 0
  | fin _, neginf => fin 0
  | inf, fin a => if 0 ≤ a then inf else neginf
  | neginf, fin a => if 0 ≤ a then neginf else inf
  | _, _ => nan

/-- Python comparison `x == 0` on a numpy float scalar
(`nan == 0` and `±inf == 0` are `False`). -/
def eq0 : PyVal → Bool
  | fin a => a == 0
  | _ => false

end PyVal

/-- `pdivN p q` embeds the Python expression `(p * 1.0) / q` where `p` and
`q` are nonnegative integer counts (numpy `int64` cells and their sums). -/
def pdivN (p q : ℕ) : PyVal := PyVal.div (.fin (p : ℚ)) (.fin (q : ℚ))

/-- The unguarded Python expression
`2 * ((precision * recall) / (precision + recall))`. -/
def f1Of (p r : PyVal) : PyVal := (PyVal.fin 2).mul ((p.mul r).div (p.add r))

/-- Insert an integer into a sorted list, keeping it sorted. -/
def insertSorted (x : ℤ) : List ℤ → List ℤ
  | [] => [x]
  | y :: ys => if x ≤ y then x :: y :: ys else y :: insertSorted x ys

/-- The sorted list of distinct values of `l`
(the semantics of `numpy.unique`). -/
def sortedLabels (l : List ℤ) : List ℤ := l.dedup.foldr insertSorted []

/-- sklearn's `confusion_matrix(actual, predicted)`: rows and columns are
indexed by the sorted distinct labels observed in either sequence; cell
`(i, j)` counts positions whose actual label is the `i`-th observed label
and whose predicted label is the `j`-th. -/
def confusionMatrix (actual predicted : List ℤ) : List (List ℕ) :=
  let labels := sortedLabels (actual ++ predicted)
  labels.map fun i => labels.map fun j =>
    (actual.zip predicted).countP fun p => p.1 == i && p.2 == j

/-- Cell lookup `matrix[i][j]`; `none` models Python's `IndexError`. -/
def cell (m : List (List ℕ)) (i j : ℕ) : Option ℕ :=
  (m.get? i).bind fun row => row.get? j

/-- Cell lookup defaulting to `0`; only used where `hasSquare` has
already certified that the lookup is in range. -/
def cellD (m : List (List ℕ)) (i j : ℕ) : ℕ := (cell m i j).getD 0

/-- Whether every lookup `matrix[i][j]` with `i, j < n` is in range;
when this fails, the Python code raises `IndexError` while unpacking
the matrix cells. -/
def hasSquare (m : List (List ℕ)) (n : ℕ) : Bool :=
  (List.range n).all fun i => (List.range n).all fun j => (cell m i j).isSome

/-- Result of `metrics(actual, predicted, num=2)`:
`accuracy, precision1, recall1, f1_1, precision2, recall2, f1_2`
in the source's return order. -/
structure Metrics2 where
  accuracy : PyVal
  precision1 : PyVal
  recall1 : PyVal
  f1_1 : PyVal
  precision2 : PyVal
  recall2 : PyVal
  f1_2 : PyVal
deriving DecidableEq, Repr

/-- The arithmetic of the `num == 2` branch of `metrics`, given the four
cells `tn = matrix[0][0]`, `fp = matrix[0][1]`, `fn = matrix[1][0]`,
`tp = matrix[1][1]`.  No F1 value is guarded in this branch. -/
def mkMetrics2 (tn fp fn tp : ℕ) : Metrics2 :=
  { accuracy := pdivN (tp + tn) (tp + tn + fp + fn)
    precision1 := pdivN tp (tp + fp)
    recall1 := pdivN tp (tp + fn)
    f1_1 := f1Of (pdivN tp (tp + fp)) (pdivN tp (tp + fn))
    precision2 := pdivN tn (tn + fn)
    recall2 := pdivN tn (tn + fp)
    f1_2 := f1Of (pdivN tn (tn + fn)) (pdivN tn (tn + fp)) }

/-- The `num == 2` branch of `metrics` applied to an already-built
confusion matrix; `none` models an `IndexError` raised while unpacking
`matrix[0][0], matrix[0,1], matrix[1,0], matrix[1][1]`. -/
def metricsCore2 (m : List (List ℕ)) : Option Metrics2 :=
  if hasSquare m 2 then
    some (mkMetrics2 (cellD m 0 0) (cellD m 0 1) (cellD m 1 0) (cellD m 1 1))
  else none

/-- `metrics(actual, predicted, num=2)` from the label sequences. -/
def metrics2 (actual predicted : List ℤ) : Option Metrics2 :=
  metricsCore2 (confusionMatrix actual predicted)

/-- Result of `metrics(actual, predicted, num=3)` in the source's return
order. -/
structure Metrics3 where
  accuracy : PyVal
  precision1 : PyVal
  recall1 : PyVal
  f1_1 : PyVal
  precision2 : PyVal
  recall2 : PyVal
  f1_2 : PyVal
  precision3 : PyVal
  recall3 : PyVal
  f1_3 : PyVal
deriving DecidableEq, Repr

/-- The arithmetic of the `num == 3` branch of `metrics`, given the nine
cells named as in the source: `tpPos = matrix[0][0]`, `tpNeg =
matrix[1][1]`, `tpNeu = matrix[2][2]`, `fBA = matrix[1][0]`, `fBC =
matrix[1][2]`, `fAB = matrix[0][1]`, `fCB = matrix[2][1]`, `fCA =
matrix[2][0]`, `fAC = matrix[0][2]`.  (The `Pos`/`Neg`/`Neu` suffixes are
the source's names for matrix indices 0/1/2; they do not match the label
semantics 0 = negative, 1 = neutral, 2 = positive that `preprocess`
assigns in 3-class mode.)  No F1 value is guarded in this branch. -/
def mkMetrics3 (tpPos tpNeg tpNeu fBA fBC fAB fCB fCA fAC : ℕ) : Metrics3 :=
  { accuracy := pdivN (tpPos + tpNeg + tpNeu)
      (tpPos + tpNeg + tpNeu + fBA + fBC + fAB + fCB + fCA + fAC)
    precision1 := pdivN tpPos (tpPos + fBA + fCA)
    recall1 := pdivN tpPos (tpPos + fAB + fAC)
    f1_1 := f1Of (pdivN tpPos (tpPos + fBA + fCA)) (pdivN tpPos (tpPos + fAB + fAC))
    precision2 := pdivN tpNeg (tpNeg + fAB + fCB)
    recall2 := pdivN tpNeg (tpNeg + fBA + fBC)
    f1_2 := f1Of (pdivN tpNeg (tpNeg + fAB + fCB)) (pdivN tpNeg (tpNeg + fBA + fBC))
    precision3 := pdivN tpNeu (tpNeu + fBC + fAC)
    recall3 := pdivN tpNeu (tpNeu + fCA + fCB)
    f1_3 := f1Of (pdivN tpNeu (tpNeu + fBC + fAC)) (pdivN tpNeu (tpNeu + fCA + fCB)) }

/-- The `num == 3` branch of `metrics` applied to an already-built
confusion matrix; `none` models an `IndexError` while unpacking cells. -/
def metricsCore3 (m : List (List ℕ)) : Option Metrics3 :=
  if hasSquare m 3 then
    some (mkMetrics3 (cellD m 0 0) (cellD m 1 1) (cellD m 2 2)
      (cellD m 1 0) (cellD m 1 2) (cellD m 0 1)
      (cellD m 2 1) (cellD m 2 0) (cellD m 0 2))
  else none

/-- `metrics(actual, predicted, num=3)` from the label sequences. -/
def metrics3 (actual predicted : List ℤ) : Option Metrics3 :=
  metricsCore3 (confusionMatrix actual predicted)

/-- Result of `metrics(actual, predicted, num=5)` in the source's return
order. -/
structure Metrics5 where
  accuracy : PyVal
  precision1 : PyVal
  recall1 : PyVal
  f1_1 : PyVal
  precision2 : PyVal
  recall2 : PyVal
  f1_2 : PyVal
  precision3 : PyVal
  recall3 : PyVal
  f1_3 : PyVal
  precision4 : PyVal
  recall4 : PyVal
  f1_4 : PyVal
  precision5 : PyVal
  recall5 : PyVal
  f1_5 : PyVal
deriving DecidableEq, Repr

/-- The arithmetic of the `num == 5` branch of `metrics`, given the 25
cells named as in the source (`t1 … t5` are the diagonal
`tpOneStar … tpFiveStar`; `fXY = matrix[row X][column Y]` with
`A..E = 0..4`).  Only `f1_2` is guarded by
`if precision2 + recall2 == 0: f1_2 = 0`; the other four F1 values use
the unguarded formula. -/
def mkMetrics5 (t1 t2 t3 t4 t5
    fAB fAC fAD fAE fBA fBC fBD fBE fCA fCB fCD fCE
    fDA fDB fDC fDE fEA fEB fEC fED : ℕ) : Metrics5 :=
  { accuracy := pdivN (t1 + t2 + t3 + t4 + t5)
      (t1 + t2 + t3 + t4 + t5 + fAB + fAC + fAD + fAE + fBA + fBC + fBD +
       fBE + fCA + fCB + fCD + fCE + fDA + fDB + fDC + fDE + fEA + fEB +
       fEC + fED)
    precision1 := pdivN t1 (t1 + fBA + fCA + fDA + fEA)
    recall1 := pdivN t1 (t1 + fAB + fAC + fAD + fAE)
    f1_1 := f1Of (pdivN t1 (t1 + fBA + fCA + fDA + fEA))
      (pdivN t1 (t1 + fAB + fAC + fAD + fAE))
    precision2 := pdivN t2 (t2 + fAB + fCB + fDB + fEB)
    recall2 := pdivN t2 (t2 + fBA + fBC + fBD + fBE)
    f1_2 := if ((pdivN t2 (t2 + fAB + fCB + fDB + fEB)).add
        (pdivN t2 (t2 + fBA + fBC + fBD + fBE))).eq0 then .fin 0
      else f1Of (pdivN t2 (t2 + fAB + fCB + fDB + fEB))
        (pdivN t2 (t2 + fBA + fBC + fBD + fBE))
    precision3 := pdivN t3 (t3 + fAC + fBC + fDC + fEC)
    recall3 := pdivN t3 (t3 + fCA + fCB + fCD + fCE)
    f1_3 := f1Of (pdivN t3 (t3 + fAC + fBC + fDC + fEC))
      (pdivN t3 (t3 + fCA + fCB + fCD + fCE))
    precision4 := pdivN t4 (t4 + fAD + fBD + fCD + fED)
    recall4 := pdivN t4 (t4 + fDA + fDB + fDC + fDE)
    f1_4 := f1Of (pdivN t4 (t4 + fAD + fBD + fCD + fED))
      (pdivN t4 (t4 + fDA + fDB + fDC + fDE))
    precision5 := pdivN t5 (t5 + fAE + fBE + fCE + fDE)
    recall5 := pdivN t5 (t5 + fEA + fEB + fEC + fED)
    f1_5 := f1Of (pdivN t5 (t5 + fAE + fBE + fCE + fDE))
      (pdivN t5 (t5 + fEA + fEB + fEC + fED)) }

/-- The `num == 5` branch of `metrics` applied to an already-built
confusion matrix; `none` models an `IndexError` while unpacking cells. -/
def metricsCore5 (m : List (List ℕ)) : Option Metrics5 :=
  if hasSquare m 5 then
    some (mkMetrics5 (cellD m 0 0) (cellD m 1 1) (cellD m 2 2)
      (cellD m 3 3) (cellD m 4 4)
      (cellD m 0 1) (cellD m 0 2) (cellD m 0 3) (cellD m 0 4)
      (cellD m 1 0) (cellD m 1 2) (cellD m 1 3) (cellD m 1 4)
      (cellD m 2 0) (cellD m 2 1) (cellD m 2 3) (cellD m 2 4)
      (cellD m 3 0) (cellD m 3 1) (cellD m 3 2) (cellD m 3 4)
      (cellD m 4 0) (cellD m 4 1) (cellD m 4 2) (cellD m 4 3))
  else none

/-- `metrics(actual, predicted, num=5)` from the label sequences. -/
def metrics5 (actual predicted : List ℤ) : Option Metrics5 :=
  metricsCore5 (confusionMatrix actual predicted)

/-- One row of the input CSV as `preprocess` sees it: `comment = none`
models a non-string cell (pandas reads a missing comment as a float
`NaN`, and `preprocess` tests `type(review[0]) == float`); `rating` is
the numeric star rating. -/
structure Review where
  comment : Option String
  rating : ℚ
deriving DecidableEq, Repr

/-- What `preprocess` returns: the processed comments (standing in, one
per retained record and in record order, for the vectorized rows of
`data`), the `target` label list, and the `info` counters
`{positive, negative, neutral}`.  Vectorization itself is the external
feature-extraction collaborator. -/
structure PreprocessOut where
  data : List String
  target : List ℕ
  num_pos : ℕ
  num_neg : ℕ
  num_neut : ℕ
deriving DecidableEq, Repr

/-- The `num == 2` loop of `preprocess`: skip records whose comment is
not a string; drop records with `negative_threshold < rating <
positive_threshold` (counting them as neutral); label `rating ≤
negative_threshold` as `0` and everything else as `1`.  `clean`
abstracts the NLTK tokenization / stop-word step applied to retained
comments. -/
def preprocess2 (negT posT : ℚ) (clean : String → String) :
    List Review → PreprocessOut
  | [] => ⟨[], [], 0, 0, 0⟩
  | r :: rest =>
    let o := preprocess2 negT posT clean rest
    match r.comment with
    | none => o
    | some c =>
      if negT < r.rating ∧ r.rating < posT then
        { o with num_neut := o.num_neut + 1 }
      else if r.rating ≤ negT then
        ⟨clean c :: o.data, 0 :: o.target, o.num_pos, o.num_neg + 1, o.num_neut⟩
      else
        ⟨clean c :: o.data, 1 :: o.target, o.num_pos + 1, o.num_neg, o.num_neut⟩

/-- The `num == 3` loop of `preprocess`: the neutral band is retained as
label `1`; `rating ≤ negative_threshold` is label `0`; everything else
is label `2`. -/
def preprocess3 (negT posT : ℚ) (clean : String → String) :
    List Review → PreprocessOut
  | [] => ⟨[], [], 0, 0, 0⟩
  | r :: rest =>
    let o := preprocess3 negT posT clean rest
    match r.comment with
    | none => o
    | some c =>
      if negT < r.rating ∧ r.rating < posT then
        ⟨clean c :: o.data, 1 :: o.target, o.num_pos, o.num_neg, o.num_neut + 1⟩
      else if r.rating ≤ negT then
        ⟨clean c :: o.data, 0 :: o.target, o.num_pos, o.num_neg + 1, o.num_neut⟩
      else
        ⟨clean c :: o.data, 2 :: o.target, o.num_pos + 1, o.num_neg, o.num_neut⟩

/-- The `num == 5` loop of `preprocess`: ratings `1.0 … 4.0` map to
labels `1 … 4` and any other rating maps to label `5`; ratings 1-2 count
as negative, 3 as neutral, 4 and the fallback as positive. -/
def preprocess5 (clean : String → String) : List Review → PreprocessOut
  | [] => ⟨[], [], 0, 0, 0⟩
  | r :: rest =>
    let o := preprocess5 clean rest
    match r.comment with
    | none => o
    | some c =>
      if r.rating = 1 then
        ⟨clean c :: o.data, 1 :: o.target, o.num_pos, o.num_neg + 1, o.num_neut⟩
      else if r.rating = 2 then
        ⟨clean c :: o.data, 2 :: o.target, o.num_pos, o.num_neg + 1, o.num_neut⟩
      else if r.rating = 3 then
        ⟨clean c :: o.data, 3 :: o.target, o.num_pos, o.num_neg, o.num_neut + 1⟩
      else if r.rating = 4 then
        ⟨clean c :: o.data, 4 :: o.target, o.num_pos + 1, o.num_neg, o.num_neut⟩
      else
        ⟨clean c :: o.data, 5 :: o.target, o.num_pos + 1, o.num_neg, o.num_neut⟩

/-- The threshold configuration stored by `ReviewClassifier`. -/
structure ClassifierCfg where
  negative_threshold : ℚ
  positive_threshold : ℚ
deriving DecidableEq, Repr

/-- `ReviewClassifier.__init__`'s threshold handling: a passed value is
stored only if it is truthy (`if negative_threshold:` in Python, so
`None` and `0.0` both keep the class defaults `2.0` / `4.0`).  No
validation whatsoever is performed on the pair. -/
def initCfg (negT posT : Option ℚ) : ClassifierCfg :=
  { negative_threshold :=
      match negT with
      | some q => if q = 0 then 2 else q
      | none => 2
    positive_threshold :=
      match posT with
      | some q => if q = 0 then 4 else q
      | none => 4 }

/-- `numpy.mean` of a nonempty list of finite float values, as an exact
rational. -/
def npMean (l : List ℚ) : ℚ := l.sum / l.length

/-- The dictionary `evaluate_average_accuracy` returns for `num == 2`:
the seven per-fold sequences together with the seven `average_*`
entries. -/
structure Report2 where
  accuracies : List ℚ
  positive_precisions : List ℚ
  positive_recalls : List ℚ
  positive_f1_scores : List ℚ
  negative_precisions : List ℚ
  negative_recalls : List ℚ
  negative_f1_scores : List ℚ
  average_accuracy : ℚ
  average_positive_precision : ℚ
  average_positive_recall : ℚ
  average_positive_f1_score : ℚ
  average_negative_precision : ℚ
  average_negative_recall : ℚ
  average_negative_f1_score : ℚ
deriving DecidableEq, Repr

/-- The aggregation step of `evaluate_average_accuracy` for `num == 2`
(source lines 360-385): the per-fold lists are the collected
`metrics` slot-1 and slot-2 values in fold order; every `average_*`
entry is `np.mean(list) * 100` while the list itself is reported raw. -/
def mkReport2 (accuracies c1p c1r c1f c2p c2r c2f : List ℚ) : Report2 :=
  { accuracies := accuracies
    positive_precisions := c1p
    positive_recalls := c1r
    positive_f1_scores := c1f
    negative_precisions := c2p
    negative_recalls := c2r
    negative_f1_scores := c2f
    average_accuracy := npMean accuracies * 100
    average_positive_precision := npMean c1p * 100
    average_positive_recall := npMean c1r * 100
    average_positive_f1_score := npMean c1f * 100
    average_negative_precision := npMean c2p * 100
    average_negative_recall := npMean c2r * 100
    average_negative_f1_score := npMean c2f * 100 }

/-- The dictionary `evaluate_average_accuracy` returns for `num == 3`:
as `Report2` plus entries named `neutral`, which receive the slot-3
(`precision3/recall3/f1_3`) values of the 3-class `metrics`. -/
structure Report3 where
  accuracies : List ℚ
  positive_precisions : List ℚ
  positive_recalls : List ℚ
  positive_f1_scores : List ℚ
  negative_precisions : List ℚ
  negative_recalls : List ℚ
  negative_f1_scores : List ℚ
  neutral_precisions : List ℚ
  neutral_recalls : List ℚ
  neutral_f1_scores : List ℚ
  average_accuracy : ℚ
  average_positive_precision : ℚ
  average_positive_recall : ℚ
  average_positive_f1_score : ℚ
  average_negative_precision : ℚ
  average_negative_recall : ℚ
  average_negative_f1_score : ℚ
  average_neutral_precision : ℚ
  average_neutral_recall : ℚ
  average_neutral_f1_score : ℚ
deriving DecidableEq, Repr

/-- The aggregation step of `evaluate_average_accuracy` for `num == 3`
(source lines 360-370 and 386-395): the entries named `positive` receive
the slot-1 lists, `negative` the slot-2 lists and `neutral` the slot-3
lists, in that fixed association. -/
def mkReport3 (accuracies c1p c1r c1f c2p c2r c2f c3p c3r c3f : List ℚ) :
    Report3 :=
  { accuracies := accuracies
    positive_precisions := c1p
    positive_recalls := c1r
    positive_f1_scores := c1f
    negative_precisions := c2p
    negative_recalls := c2r
    negative_f1_scores := c2f
    neutral_precisions := c3p
    neutral_recalls := c3r
    neutral_f1_scores := c3f
    average_accuracy := npMean accuracies * 100
    average_positive_precision := npMean c1p * 100
    average_positive_recall := npMean c1r * 100
    average_positive_f1_score := npMean c1f * 100
    average_negative_precision := npMean c2p * 100
    average_negative_recall := npMean c2r * 100
    average_negative_f1_score := npMean c2f * 100
    average_neutral_precision := npMean c3p * 100
    average_neutral_recall := npMean c3r * 100
    average_neutral_f1_score := npMean c3f * 100 }

/-- The aggregation of `CNNReviewClassifier.evaluate_k_fold` (source
lines 316-337): per-fold `(accuracy, precision, recall)` results are
summed into running totals and each total is divided by the literal
constant `5` — not by `num_folds` — to produce the printed averages.
No per-fold sequence is reported. -/
def cnnKFoldAverages (foldResults : List (ℚ × ℚ × ℚ)) : ℚ × ℚ × ℚ :=
  let totals := foldResults.foldl
    (fun acc r => (acc.1 + r.1, acc.2.1 + r.2.1, acc.2.2 + r.2.2)) (0, 0, 0)
  (totals.1 / 5, totals.2.1 / 5, totals.2.2 / 5)

/-! ### Specification-side per-class definitions (spec §4.1)

These follow the specification's wording, not the code, and exist to be
compared with the code's slot values: `TP_c = matrix[c][c]`,
`TP_c + FP_c` is column `c`'s sum, `TP_c + FN_c` is row `c`'s sum,
`precision_c = TP_c / (TP_c + FP_c)`, `recall_c = TP_c / (TP_c + FN_c)`. -/

/-- Spec-side `TP_c = matrix[c][c]`. -/
def specTP (m : List (List ℕ)) (c : ℕ) : ℕ := cellD m c c

/-- Spec-side column sum `TP_c + FP_c` of an `n × n` matrix. -/
def specColSum (m : List (List ℕ)) (n c : ℕ) : ℕ :=
  ((List.range n).map fun r => cellD m r c).sum

/-- Spec-side row sum `TP_c + FN_c` of an `n × n` matrix. -/
def specRowSum (m : List (List ℕ)) (n c : ℕ) : ℕ :=
  ((List.range n).map fun j => cellD m c j).sum

/-- Spec-side `precision_c = TP_c / (TP_c + FP_c)` for class index `c`
of an `n × n` confusion matrix. -/
def specPrecision (m : List (List ℕ)) (n c : ℕ) : PyVal :=
  pdivN (specTP m c) (specColSum m n c)

/-- Spec-side `recall_c = TP_c / (TP_c + FN_c)` for class index `c`
of an `n × n` confusion matrix. -/
def specRecall (m : List (List ℕ)) (n c : ℕ) : PyVal :=
  pdivN (specTP m c) (specRowSum m n c)

/-! ### Helper lemmas -/

/-- A count divided by a nonzero count is the finite exact quotient. -/
lemma pdivN_eq_fin (a : ℕ) {b : ℕ} (hb : b ≠ 0) :
    pdivN a b = .fin ((a : ℚ) / (b : ℚ)) := by
  have : ((b : ℚ)) ≠ 0 := Nat.cast_ne_zero.mpr hb
  simp [pdivN, PyVal.div, this]

/-- `0/0` on numpy float scalars is NaN. -/
lemma pdivN_nan {a b : ℕ} (ha : a = 0) (hb : b = 0) : pdivN a b = .nan := by
  subst ha; subst hb
  simp [pdivN, PyVal.div]

/-- Two count quotients with equal denominators are equal. -/
lemma pdivN_congr {a : ℕ} {b b' : ℕ} (h : b = b') : pdivN a b = pdivN a b' := by
  rw [h]

/-- Shape of a count quotient: finite, NaN (`0/0`) or `inf` (`pos/0`). -/
lemma pdivN_cases (a b : ℕ) :
    (b ≠ 0 ∧ pdivN a b = .fin ((a : ℚ) / (b : ℚ))) ∨
    (b = 0 ∧ a = 0 ∧ pdivN a b = .nan) ∨
    (b = 0 ∧ 0 < a ∧ pdivN a b = .inf) := by
  rcases Nat.eq_zero_or_pos b with hb | hb
  · subst hb
    rcases Nat.eq_zero_or_pos a with ha | ha
    · exact Or.inr (Or.inl ⟨rfl, ha, pdivN_nan ha rfl⟩)
    · refine Or.inr (Or.inr ⟨rfl, ha, ?_⟩)
      have ha' : (0 : ℚ) < (a : ℚ) := by exact_mod_cast ha
      simp [pdivN, PyVal.div, ha', not_lt.mpr ha'.le]
  · exact Or.inl ⟨hb.ne', pdivN_eq_fin a hb.ne'⟩

/-- If the Python test `precision + recall == 0` succeeds on the two
count quotients, the unguarded F1 formula evaluates to NaN (it computes
`2 * (0/0)`); no exception is raised. -/
lemma f1Of_nan_of_eq0 {t d1 d2 : ℕ}
    (h : ((pdivN t d1).add (pdivN t d2)).eq0 = true) :
    f1Of (pdivN t d1) (pdivN t d2) = .nan := by
  rcases pdivN_cases t d1 with ⟨hd1, hp⟩ | ⟨hd1, ht, hp⟩ | ⟨hd1, ht, hp⟩ <;>
    rcases pdivN_cases t d2 with ⟨hd2, hr⟩ | ⟨hd2, ht2, hr⟩ | ⟨hd2, ht2, hr⟩ <;>
      rw [hp, hr] at h ⊢ <;>
        simp [PyVal.add, PyVal.eq0] at h
  · -- both quotients finite; their sum is zero, so each is zero
    have hp0 : (0 : ℚ) ≤ (t : ℚ) / (d1 : ℚ) := by positivity
    have hr0 : (0 : ℚ) ≤ (t : ℚ) / (d2 : ℚ) := by positivity
    have h1 : (t : ℚ) / (d1 : ℚ) = 0 := by linarith
    have h2 : (t : ℚ) / (d2 : ℚ) = 0 := by linarith
    rw [h1, h2]
    simp [f1Of, PyVal.mul, PyVal.add, PyVal.div]

/-- Any out-of-range lookup makes the square-unpacking check fail. -/
lemma hasSquare_eq_false {m : List (List ℕ)} {n : ℕ} (h : m.length < n) :
    hasSquare m n = false := by
  unfold hasSquare
  rw [List.all_eq_false]
  refine ⟨m.length, List.mem_range.mpr h, ?_⟩
  rw [Bool.not_eq_true, List.all_eq_false]
  refine ⟨0, List.mem_range.mpr (Nat.lt_of_le_of_lt (Nat.zero_le _) h), ?_⟩
  have : m.get? m.length = none := List.get?_eq_none.mpr le_rfl
  simp [cell, this]

/-- Inversion for the 2-class branch: a successful call returns exactly
the arithmetic of the four unpacked cells. -/
lemma metricsCore2_inv {m : List (List ℕ)} {M : Metrics2}
    (h : metricsCore2 m = some M) :
    M = mkMetrics2 (cellD m 0 0) (cellD m 0 1) (cellD m 1 0) (cellD m 1 1) := by
  unfold metricsCore2 at h
  split at h
  · exact (Option.some.inj h).symm
  · cases h

/-- Inversion for the 3-class branch. -/
lemma metricsCore3_inv {m : List (List ℕ)} {M : Metrics3}
    (h : metricsCore3 m = some M) :
    M = mkMetrics3 (cellD m 0 0) (cellD m 1 1) (cellD m 2 2)
      (cellD m 1 0) (cellD m 1 2) (cellD m 0 1)
      (cellD m 2 1) (cellD m 2 0) (cellD m 0 2) := by
  unfold metricsCore3 at h
  split at h
  · exact (Option.some.inj h).symm
  · cases h

/-- Inversion for the 5-class branch. -/
lemma metricsCore5_inv {m : List (List ℕ)} {M : Metrics5}
    (h : metricsCore5 m = some M) :
    M = mkMetrics5 (cellD m 0 0) (cellD m 1 1) (cellD m 2 2)
      (cellD m 3 3) (cellD m 4 4)
      (cellD m 0 1) (cellD m 0 2) (cellD m 0 3) (cellD m 0 4)
      (cellD m 1 0) (cellD m 1 2) (cellD m 1 3) (cellD m 1 4)
      (cellD m 2 0) (cellD m 2 1) (cellD m 2 3) (cellD m 2 4)
      (cellD m 3 0) (cellD m 3 1) (cellD m 3 2) (cellD m 3 4)
      (cellD m 4 0) (cellD m 4 1) (cellD m 4 2) (cellD m 4 3) := by
  unfold metricsCore5 at h
  split at h
  · exact (Option.some.inj h).symm
  · cases h

/-! ### Claim theorems -/

/-- Claim C4: applying the 2-class `metrics` to actual/predicted label
sequences whose confusion matrix is `[[8,2],[1,9]]` (rows = actual;
class 0 = negative, class 1 = positive) yields accuracy `17/20 = 0.85`,
class-1 (positive) precision `9/11`, recall `9/10` and F1 `6/7 ≈ 0.857`
(the slot-1 fields, which hold the positive class), and class-0
(negative) precision `8/9`, recall `8/10 = 4/5` and F1 `16/19 ≈ 0.842`
(the slot-2 fields, which hold the negative class). -/
theorem claim_C4 :
    metrics2 (List.replicate 10 0 ++ List.replicate 10 1)
      (List.replicate 8 0 ++ List.replicate 2 1 ++
       List.replicate 1 0 ++ List.replicate 9 1) =
    some { accuracy := .fin (17/20), precision1 := .fin (9/11),
           recall1 := .fin (9/10), f1_1 := .fin (6/7),
           precision2 := .fin (8/9), recall2 := .fin (4/5),
           f1_2 := .fin (16/19) } := by
  have h : metrics2 (List.replicate 10 0 ++ List.replicate 10 1)
      (List.replicate 8 0 ++ List.replicate 2 1 ++
       List.replicate 1 0 ++ List.replicate 9 1) =
      some (mkMetrics2 8 2 1 9) := by rfl
  rw [h]
  congr 1
  simp only [mkMetrics2, pdivN, f1Of, PyVal.div, PyVal.mul, PyVal.add]
  norm_num

/-- Claim C5: for every square confusion matrix of size `n ∈ {2,3,5}`
with all row and column sums strictly positive, the corresponding
`metrics` branch succeeds and its accuracy equals
`trace(M) / sum(M)`, a rational in `[0,1]`. -/
theorem claim_C5 :
    (∀ a b c d : ℕ, 0 < a + b → 0 < c + d → 0 < a + c → 0 < b + d →
      ∃ M, metricsCore2 [[a, b], [c, d]] = some M ∧
        M.accuracy = .fin (((a + d : ℕ) : ℚ) / ((a + b + c + d : ℕ) : ℚ)) ∧
        0 ≤ ((a + d : ℕ) : ℚ) / ((a + b + c + d : ℕ) : ℚ) ∧
        ((a + d : ℕ) : ℚ) / ((a + b + c + d : ℕ) : ℚ) ≤ 1) ∧
    (∀ a b c d e f g h i : ℕ,
      0 < a + b + c → 0 < d + e + f → 0 < g + h + i →
      0 < a + d + g → 0 < b + e + h → 0 < c + f + i →
      ∃ M, metricsCore3 [[a, b, c], [d, e, f], [g, h, i]] = some M ∧
        M.accuracy =
          .fin (((a + e + i : ℕ) : ℚ) /
            ((a + b + c + d + e + f + g + h + i : ℕ) : ℚ)) ∧
        0 ≤ ((a + e + i : ℕ) : ℚ) /
            ((a + b + c + d + e + f + g + h + i : ℕ) : ℚ) ∧
        ((a + e + i : ℕ) : ℚ) /
            ((a + b + c + d + e + f + g + h + i : ℕ) : ℚ) ≤ 1) ∧
    (∀ x00 x01 x02 x03 x04 x10 x11 x12 x13 x14 x20 x21 x22 x23 x24
        x30 x31 x32 x33 x34 x40 x41 x42 x43 x44 : ℕ,
      0 < x00 + x01 + x02 + x03 + x04 → 0 < x10 + x11 + x12 + x13 + x14 →
      0 < x20 + x21 + x22 + x23 + x24 → 0 < x30 + x31 + x32 + x33 + x34 →
      0 < x40 + x41 + x42 + x43 + x44 →
      0 < x00 + x10 + x20 + x30 + x40 → 0 < x01 + x11 + x21 + x31 + x41 →
      0 < x02 + x12 + x22 + x32 + x42 → 0 < x03 + x13 + x23 + x33 + x43 →
      0 < x04 + x14 + x24 + x34 + x44 →
      ∃ M, metricsCore5
          [[x00, x01, x02, x03, x04], [x10, x11, x12, x13, x14],
           [x20, x21, x22, x23, x24], [x30, x31, x32, x33, x34],
           [x40, x41, x42, x43, x44]] = some M ∧
        M.accuracy =
          .fin (((x00 + x11 + x22 + x33 + x44 : ℕ) : ℚ) /
            ((x00 + x01 + x02 + x03 + x04 + x10 + x11 + x12 + x13 + x14 +
              x20 + x21 + x22 + x23 + x24 + x30 + x31 + x32 + x33 + x34 +
              x40 + x41 + x42 + x43 + x44 : ℕ) : ℚ)) ∧
        0 ≤ ((x00 + x11 + x22 + x33 + x44 : ℕ) : ℚ) /
            ((x00 + x01 + x02 + x03 + x04 + x10 + x11 + x12 + x13 + x14 +
              x20 + x21 + x22 + x23 + x24 + x30 + x31 + x32 + x33 + x34 +
              x40 + x41 + x42 + x43 + x44 : ℕ) : ℚ) ∧
        ((x00 + x11 + x22 + x33 + x44 : ℕ) : ℚ) /
            ((x00 + x01 + x02 + x03 + x04 + x10 + x11 + x12 + x13 + x14 +
              x20 + x21 + x22 + x23 + x24 + x30 + x31 + x32 + x33 + x34 +
              x40 + x41 + x42 + x43 + x44 : ℕ) : ℚ) ≤ 1) := by
  refine ⟨?_, ?_, ?_⟩
  · intro a b c d h1 h2 h3 h4
    refine ⟨mkMetrics2 a b c d, rfl, ?_, by positivity, ?_⟩
    · show pdivN (d + a) (d + a + b + c) = _
      rw [pdivN_eq_fin _ (by omega : d + a + b + c ≠ 0)]
      congr 1
      push_cast
      ring
    · rw [div_le_one (by exact_mod_cast (by omega : 0 < a + b + c + d))]
      exact_mod_cast (by omega : a + d ≤ a + b + c + d)
  · intro a b c d e f g h i h1 h2 h3 h4 h5 h6
    refine ⟨mkMetrics3 a e i d f b h g c, rfl, ?_, by positivity, ?_⟩
    · show pdivN (a + e + i) (a + e + i + d + f + b + h + g + c) = _
      rw [pdivN_eq_fin _ (by omega : a + e + i + d + f + b + h + g + c ≠ 0)]
      congr 1
      push_cast
      ring
    · rw [div_le_one
        (by exact_mod_cast (by omega : 0 < a + b + c + d + e + f + g + h + i))]
      exact_mod_cast (by omega : a + e + i ≤ a + b + c + d + e + f + g + h + i)
  · intro x00 x01 x02 x03 x04 x10 x11 x12 x13 x14 x20 x21 x22 x23 x24
      x30 x31 x32 x33 x34 x40 x41 x42 x43 x44 h1 h2 h3 h4 h5 h6 h7 h8 h9 h10
    refine ⟨mkMetrics5 x00 x11 x22 x33 x44
        x01 x02 x03 x04 x10 x12 x13 x14 x20 x21 x23 x24
        x30 x31 x32 x34 x40 x41 x42 x43, rfl, ?_, by positivity, ?_⟩
    · show pdivN (x00 + x11 + x22 + x33 + x44)
        (x00 + x11 + x22 + x33 + x44 + x01 + x02 + x03 + x04 + x10 + x12 +
         x13 + x14 + x20 + x21 + x23 + x24 + x30 + x31 + x32 + x34 + x40 +
         x41 + x42 + x43) = _
      rw [pdivN_eq_fin _ (by omega :
        x00 + x11 + x22 + x33 + x44 + x01 + x02 + x03 + x04 + x10 + x12 +
        x13 + x14 + x20 + x21 + x23 + x24 + x30 + x31 + x32 + x34 + x40 +
        x41 + x42 + x43 ≠ 0)]
      congr 1
      push_cast
      ring
    · rw [div_le_one (by exact_mod_cast (by omega :
        0 < x00 + x01 + x02 + x03 + x04 + x10 + x11 + x12 + x13 + x14 +
          x20 + x21 + x22 + x23 + x24 + x30 + x31 + x32 + x33 + x34 +
          x40 + x41 + x42 + x43 + x44))]
      exact_mod_cast (by omega :
        x00 + x11 + x22 + x33 + x44 ≤
        x00 + x01 + x02 + x03 + x04 + x10 + x11 + x12 + x13 + x14 +
          x20 + x21 + x22 + x23 + x24 + x30 + x31 + x32 + x33 + x34 +
          x40 + x41 + x42 + x43 + x44)

/-- Claim C5 witness: the three parts of `claim_C5` applied to the
all-ones matrices of sizes 2, 3 and 5. -/
theorem claim_C5_witness :
    (∃ M, metricsCore2 [[1, 1], [1, 1]] = some M ∧
      M.accuracy = .fin (((1 + 1 : ℕ) : ℚ) / ((1 + 1 + 1 + 1 : ℕ) : ℚ)) ∧
      0 ≤ ((1 + 1 : ℕ) : ℚ) / ((1 + 1 + 1 + 1 : ℕ) : ℚ) ∧
      ((1 + 1 : ℕ) : ℚ) / ((1 + 1 + 1 + 1 : ℕ) : ℚ) ≤ 1) ∧
    (∃ M, metricsCore3 [[1, 1, 1], [1, 1, 1], [1, 1, 1]] = some M ∧
      M.accuracy = .fin (((1 + 1 + 1 : ℕ) : ℚ) /
        ((1 + 1 + 1 + 1 + 1 + 1 + 1 + 1 + 1 : ℕ) : ℚ)) ∧
      0 ≤ ((1 + 1 + 1 : ℕ) : ℚ) /
        ((1 + 1 + 1 + 1 + 1 + 1 + 1 + 1 + 1 : ℕ) : ℚ) ∧
      ((1 + 1 + 1 : ℕ) : ℚ) /
        ((1 + 1 + 1 + 1 + 1 + 1 + 1 + 1 + 1 : ℕ) : ℚ) ≤ 1) :=
  ⟨claim_C5.1 1 1 1 1 (by norm_num) (by norm_num) (by norm_num) (by norm_num),
   claim_C5.2.1 1 1 1 1 1 1 1 1 1 (by norm_num) (by norm_num) (by norm_num)
     (by norm_num) (by norm_num) (by norm_num)⟩

/-- Claim C1 counterexample: in 2-class mode with actual `[0,0,1]` and
predicted `[0,1,0]` (confusion matrix `[[1,1],[1,0]]`), class 1 has
`precision + recall == 0`, yet the returned `f1_1` is NaN — produced by
the unguarded `2 * ((p*r)/(p+r))` — and not `0`; the zero-F1 guard is
therefore not applied to this class, refuting uniformity. -/
theorem claim_C1_cex :
    metrics2 [0, 0, 1] [0, 1, 0] = some (mkMetrics2 1 1 1 0) ∧
    ((mkMetrics2 1 1 1 0).precision1.add (mkMetrics2 1 1 1 0).recall1).eq0
      = true ∧
    (mkMetrics2 1 1 1 0).f1_1 = PyVal.nan ∧
    PyVal.nan ≠ PyVal.fin 0 := by
  refine ⟨by rfl, ?_, ?_, by simp⟩
  · simp only [mkMetrics2, pdivN, PyVal.div, PyVal.add, PyVal.eq0]
    norm_num
  · simp only [mkMetrics2, pdivN, f1Of, PyVal.div, PyVal.mul, PyVal.add]
    norm_num

/-- Claim C1 (amended): whenever the Python test
`precision_c + recall_c == 0` would succeed, the call still returns
without a division error (every branch is total), but the returned
`f1_c` is `0` only for class 2 in 5-class mode — the one guarded slot;
for every other class in every mode it is NaN, computed as `2 * (0/0)`
by the unguarded formula. -/
theorem claim_C1_amended :
    (∀ (m : List (List ℕ)) (M : Metrics2), metricsCore2 m = some M →
      ((M.precision1.add M.recall1).eq0 = true → M.f1_1 = .nan) ∧
      ((M.precision2.add M.recall2).eq0 = true → M.f1_2 = .nan)) ∧
    (∀ (m : List (List ℕ)) (M : Metrics3), metricsCore3 m = some M →
      ((M.precision1.add M.recall1).eq0 = true → M.f1_1 = .nan) ∧
      ((M.precision2.add M.recall2).eq0 = true → M.f1_2 = .nan) ∧
      ((M.precision3.add M.recall3).eq0 = true → M.f1_3 = .nan)) ∧
    (∀ (m : List (List ℕ)) (M : Metrics5), metricsCore5 m = some M →
      ((M.precision2.add M.recall2).eq0 = true → M.f1_2 = .fin 0) ∧
      ((M.precision1.add M.recall1).eq0 = true → M.f1_1 = .nan) ∧
      ((M.precision3.add M.recall3).eq0 = true → M.f1_3 = .nan) ∧
      ((M.precision4.add M.recall4).eq0 = true → M.f1_4 = .nan) ∧
      ((M.precision5.add M.recall5).eq0 = true → M.f1_5 = .nan)) := by
  refine ⟨?_, ?_, ?_⟩
  · intro m M hM
    obtain rfl := metricsCore2_inv hM
    exact ⟨fun h => f1Of_nan_of_eq0 h, fun h => f1Of_nan_of_eq0 h⟩
  · intro m M hM
    obtain rfl := metricsCore3_inv hM
    exact ⟨fun h => f1Of_nan_of_eq0 h, fun h => f1Of_nan_of_eq0 h,
      fun h => f1Of_nan_of_eq0 h⟩
  · intro m M hM
    obtain rfl := metricsCore5_inv hM
    refine ⟨?_, fun h => f1Of_nan_of_eq0 h, fun h => f1Of_nan_of_eq0 h,
      fun h => f1Of_nan_of_eq0 h, fun h => f1Of_nan_of_eq0 h⟩
    intro h
    simp only [mkMetrics5] at h ⊢
    simp [h]

/-- Claim C1 witness: the amended claim applied to concrete matrices —
the 2-class branch yields NaN for an unguarded zero-sum class, and the
5-class branch yields 0 for the guarded class 2. -/
theorem claim_C1_witness :
    (mkMetrics2 1 1 1 0).f1_1 = PyVal.nan ∧
    (mkMetrics5 1 0 1 1 1 1 1 1 1 1 1 1 1 1 1 1 1 1 1 1 1 1 1 1 1).f1_2 =
      PyVal.fin 0 := by
  constructor
  · exact (claim_C1_amended.1 [[1, 1], [1, 0]] (mkMetrics2 1 1 1 0) rfl).1
      (by simp only [mkMetrics2, pdivN, PyVal.div, PyVal.add, PyVal.eq0]
          norm_num)
  · exact (claim_C1_amended.2.2
      [[1, 1, 1, 1, 1], [1, 0, 1, 1, 1], [1, 1, 1, 1, 1],
       [1, 1, 1, 1, 1], [1, 1, 1, 1, 1]]
      (mkMetrics5 1 0 1 1 1 1 1 1 1 1 1 1 1 1 1 1 1 1 1 1 1 1 1 1 1)
      rfl).1
      (by simp only [mkMetrics5, pdivN, PyVal.div, PyVal.add, PyVal.eq0]
          norm_num)

/-- Claim C3: in every mode, whenever class `c` has `TP_c + FP_c = 0`
(column sum zero: never predicted) the returned `precision_c` is the
explicit undefined value NaN, and whenever `TP_c + FN_c = 0` (row sum
zero: never actual) the returned `recall_c` is NaN; the call does not
raise — numpy evaluates the `0/0` scalar quotient to NaN with only a
RuntimeWarning.  Slot `k` of the 2-class branch holds class index
`2 - k`; slot `k` of the 3- and 5-class branches holds class index
`k - 1`. -/
theorem claim_C3 :
    (∀ (m : List (List ℕ)) (M : Metrics2), metricsCore2 m = some M →
      (specColSum m 2 1 = 0 → M.precision1 = .nan) ∧
      (specRowSum m 2 1 = 0 → M.recall1 = .nan) ∧
      (specColSum m 2 0 = 0 → M.precision2 = .nan) ∧
      (specRowSum m 2 0 = 0 → M.recall2 = .nan)) ∧
    (∀ (m : List (List ℕ)) (M : Metrics3), metricsCore3 m = some M →
      (specColSum m 3 0 = 0 → M.precision1 = .nan) ∧
      (specRowSum m 3 0 = 0 → M.recall1 = .nan) ∧
      (specColSum m 3 1 = 0 → M.precision2 = .nan) ∧
      (specRowSum m 3 1 = 0 → M.recall2 = .nan) ∧
      (specColSum m 3 2 = 0 → M.precision3 = .nan) ∧
      (specRowSum m 3 2 = 0 → M.recall3 = .nan)) ∧
    (∀ (m : List (List ℕ)) (M : Metrics5), metricsCore5 m = some M →
      (specColSum m 5 0 = 0 → M.precision1 = .nan) ∧
      (specRowSum m 5 0 = 0 → M.recall1 = .nan) ∧
      (specColSum m 5 1 = 0 → M.precision2 = .nan) ∧
      (specRowSum m 5 1 = 0 → M.recall2 = .nan) ∧
      (specColSum m 5 2 = 0 → M.precision3 = .nan) ∧
      (specRowSum m 5 2 = 0 → M.recall3 = .nan) ∧
      (specColSum m 5 3 = 0 → M.precision4 = .nan) ∧
      (specRowSum m 5 3 = 0 → M.recall4 = .nan) ∧
      (specColSum m 5 4 = 0 → M.precision5 = .nan) ∧
      (specRowSum m 5 4 = 0 → M.recall5 = .nan)) := by
  refine ⟨?_, ?_, ?_⟩
  · intro m M hM
    obtain rfl := metricsCore2_inv hM
    refine ⟨fun h => ?_, fun h => ?_, fun h => ?_, fun h => ?_⟩ <;>
      · simp only [specColSum, specRowSum, List.range_succ, List.range_zero,
          List.map_append, List.map_cons, List.map_nil, List.sum_append,
          List.sum_cons, List.sum_nil, List.nil_append] at h
        exact pdivN_nan (by omega) (by omega)
  · intro m M hM
    obtain rfl := metricsCore3_inv hM
    refine ⟨fun h => ?_, fun h => ?_, fun h => ?_, fun h => ?_,
      fun h => ?_, fun h => ?_⟩ <;>
      · simp only [specColSum, specRowSum, List.range_succ, List.range_zero,
          List.map_append, List.map_cons, List.map_nil, List.sum_append,
          List.sum_cons, List.sum_nil, List.nil_append] at h
        exact pdivN_nan (by omega) (by omega)
  · intro m M hM
    obtain rfl := metricsCore5_inv hM
    refine ⟨fun h => ?_, fun h => ?_, fun h => ?_, fun h => ?_,
      fun h => ?_, fun h => ?_, fun h => ?_, fun h => ?_,
      fun h => ?_, fun h => ?_⟩ <;>
      · simp only [specColSum, specRowSum, List.range_succ, List.range_zero,
          List.map_append, List.map_cons, List.map_nil, List.sum_append,
          List.sum_cons, List.sum_nil, List.nil_append] at h
        exact pdivN_nan (by omega) (by omega)

/-- Claim C3 witness: for the matrix `[[0,1],[0,1]]` class 0 is never
predicted (`TP_0 + FP_0 = 0`) and the returned class-0 precision (slot
2 of the 2-class branch) is NaN. -/
theorem claim_C3_witness : (mkMetrics2 0 1 0 1).precision2 = PyVal.nan :=
  (claim_C3.1 [[0, 1], [0, 1]] (mkMetrics2 0 1 0 1) rfl).2.2.1 (by decide)

/-- Claim C6 counterexample: on sequences with confusion matrix
`[[3,1],[2,4]]` in 2-class mode, the first per-class slot of the return
(`precision1`) holds the precision of class index 1 (`4/5`), not of the
smallest class index 0 (`3/5`): the 2-class output is not in ascending
class-index order. -/
theorem claim_C6_cex :
    metrics2 [0, 0, 0, 0, 1, 1, 1, 1, 1, 1]
      [0, 0, 0, 1, 0, 0, 1, 1, 1, 1] = some (mkMetrics2 3 1 2 4) ∧
    (mkMetrics2 3 1 2 4).precision1 =
      specPrecision (confusionMatrix [0, 0, 0, 0, 1, 1, 1, 1, 1, 1]
        [0, 0, 0, 1, 0, 0, 1, 1, 1, 1]) 2 1 ∧
    (mkMetrics2 3 1 2 4).precision1 ≠
      specPrecision (confusionMatrix [0, 0, 0, 0, 1, 1, 1, 1, 1, 1]
        [0, 0, 0, 1, 0, 0, 1, 1, 1, 1]) 2 0 := by
  refine ⟨by rfl, by rfl, ?_⟩
  show pdivN 4 5 ≠ pdivN 3 5
  simp only [pdivN, PyVal.div]
  norm_num

/-- Claim C6 (amended): the per-class slots of `metrics` follow matrix
index order in the 3- and 5-class branches (slot `k` is class index
`k - 1`), but the 2-class branch returns class index 1 first and class
index 0 second.  The `num == 3` report attaches the name `positive` to
slot 1, `negative` to slot 2 and `neutral` to slot 3, while in 3-class
mode `preprocess` labels negative records 0, neutral records 1 and
positive records 2 — so the report's named access retrieves the wrong
class in 3-class mode (slot 1 is class 0 = negative, not positive). -/
theorem claim_C6_amended :
    (∀ tn fp fn tp : ℕ,
      metricsCore2 [[tn, fp], [fn, tp]] = some (mkMetrics2 tn fp fn tp) ∧
      (mkMetrics2 tn fp fn tp).precision1 =
        specPrecision [[tn, fp], [fn, tp]] 2 1 ∧
      (mkMetrics2 tn fp fn tp).recall1 = specRecall [[tn, fp], [fn, tp]] 2 1 ∧
      (mkMetrics2 tn fp fn tp).precision2 =
        specPrecision [[tn, fp], [fn, tp]] 2 0 ∧
      (mkMetrics2 tn fp fn tp).recall2 = specRecall [[tn, fp], [fn, tp]] 2 0) ∧
    (∀ a b c d e f g h i : ℕ,
      metricsCore3 [[a, b, c], [d, e, f], [g, h, i]] =
        some (mkMetrics3 a e i d f b h g c) ∧
      (mkMetrics3 a e i d f b h g c).precision1 =
        specPrecision [[a, b, c], [d, e, f], [g, h, i]] 3 0 ∧
      (mkMetrics3 a e i d f b h g c).recall1 =
        specRecall [[a, b, c], [d, e, f], [g, h, i]] 3 0 ∧
      (mkMetrics3 a e i d f b h g c).precision2 =
        specPrecision [[a, b, c], [d, e, f], [g, h, i]] 3 1 ∧
      (mkMetrics3 a e i d f b h g c).recall2 =
        specRecall [[a, b, c], [d, e, f], [g, h, i]] 3 1 ∧
      (mkMetrics3 a e i d f b h g c).precision3 =
        specPrecision [[a, b, c], [d, e, f], [g, h, i]] 3 2 ∧
      (mkMetrics3 a e i d f b h g c).recall3 =
        specRecall [[a, b, c], [d, e, f], [g, h, i]] 3 2) ∧
    (∀ x00 x01 x02 x03 x04 x10 x11 x12 x13 x14 x20 x21 x22 x23 x24
        x30 x31 x32 x33 x34 x40 x41 x42 x43 x44 : ℕ,
      metricsCore5
          [[x00, x01, x02, x03, x04], [x10, x11, x12, x13, x14],
           [x20, x21, x22, x23, x24], [x30, x31, x32, x33, x34],
           [x40, x41, x42, x43, x44]] =
        some (mkMetrics5 x00 x11 x22 x33 x44
          x01 x02 x03 x04 x10 x12 x13 x14 x20 x21 x23 x24
          x30 x31 x32 x34 x40 x41 x42 x43) ∧
      ∀ M, M = mkMetrics5 x00 x11 x22 x33 x44
          x01 x02 x03 x04 x10 x12 x13 x14 x20 x21 x23 x24
          x30 x31 x32 x34 x40 x41 x42 x43 →
        M.precision1 = specPrecision
          [[x00, x01, x02, x03, x04], [x10, x11, x12, x13, x14],
           [x20, x21, x22, x23, x24], [x30, x31, x32, x33, x34],
           [x40, x41, x42, x43, x44]] 5 0 ∧
        M.recall1 = specRecall
          [[x00, x01, x02, x03, x04], [x10, x11, x12, x13, x14],
           [x20, x21, x22, x23, x24], [x30, x31, x32, x33, x34],
           [x40, x41, x42, x43, x44]] 5 0 ∧
        M.precision2 = specPrecision
          [[x00, x01, x02, x03, x04], [x10, x11, x12, x13, x14],
           [x20, x21, x22, x23, x24], [x30, x31, x32, x33, x34],
           [x40, x41, x42, x43, x44]] 5 1 ∧
        M.recall2 = specRecall
          [[x00, x01, x02, x03, x04], [x10, x11, x12, x13, x14],
           [x20, x21, x22, x23, x24], [x30, x31, x32, x33, x34],
           [x40, x41, x42, x43, x44]] 5 1 ∧
        M.precision3 = specPrecision
          [[x00, x01, x02, x03, x04], [x10, x11, x12, x13, x14],
           [x20, x21, x22, x23, x24], [x30, x31, x32, x33, x34],
           [x40, x41, x42, x43, x44]] 5 2 ∧
        M.recall3 = specRecall
          [[x00, x01, x02, x03, x04], [x10, x11, x12, x13, x14],
           [x20, x21, x22, x23, x24], [x30, x31, x32, x33, x34],
           [x40, x41, x42, x43, x44]] 5 2 ∧
        M.precision4 = specPrecision
          [[x00, x01, x02, x03, x04], [x10, x11, x12, x13, x14],
           [x20, x21, x22, x23, x24], [x30, x31, x32, x33, x34],
           [x40, x41, x42, x43, x44]] 5 3 ∧
        M.recall4 = specRecall
          [[x00, x01, x02, x03, x04], [x10, x11, x12, x13, x14],
           [x20, x21, x22, x23, x24], [x30, x31, x32, x33, x34],
           [x40, x41, x42, x43, x44]] 5 3 ∧
        M.precision5 = specPrecision
          [[x00, x01, x02, x03, x04], [x10, x11, x12, x13, x14],
           [x20, x21, x22, x23, x24], [x30, x31, x32, x33, x34],
           [x40, x41, x42, x43, x44]] 5 4 ∧
        M.recall5 = specRecall
          [[x00, x01, x02, x03, x04], [x10, x11, x12, x13, x14],
           [x20, x21, x22, x23, x24], [x30, x31, x32, x33, x34],
           [x40, x41, x42, x43, x44]] 5 4) ∧
    (∀ accs c1p c1r c1f c2p c2r c2f c3p c3r c3f : List ℚ,
      (mkReport3 accs c1p c1r c1f c2p c2r c2f c3p c3r c3f).positive_precisions
        = c1p ∧
      (mkReport3 accs c1p c1r c1f c2p c2r c2f c3p c3r c3f).negative_precisions
        = c2p ∧
      (mkReport3 accs c1p c1r c1f c2p c2r c2f c3p c3r c3f).neutral_precisions
        = c3p) ∧
    (∀ (negT posT : ℚ) (clean : String → String) (c : String) (rating : ℚ)
        (rest : List Review),
      (rating ≤ negT →
        (preprocess3 negT posT clean (⟨some c, rating⟩ :: rest)).target =
          0 :: (preprocess3 negT posT clean rest).target) ∧
      (negT < rating → rating < posT →
        (preprocess3 negT posT clean (⟨some c, rating⟩ :: rest)).target =
          1 :: (preprocess3 negT posT clean rest).target) ∧
      (negT < posT → posT ≤ rating →
        (preprocess3 negT posT clean (⟨some c, rating⟩ :: rest)).target =
          2 :: (preprocess3 negT posT clean rest).target)) := by
  refine ⟨?_, ?_, ?_, ?_, ?_⟩
  · intro tn fp fn tp
    refine ⟨rfl, ?_, ?_, rfl, rfl⟩
    · show pdivN tp (tp + fp) = pdivN tp (fp + tp)
      exact pdivN_congr (by omega)
    · show pdivN tp (tp + fn) = pdivN tp (fn + tp)
      exact pdivN_congr (by omega)
  · intro a b c d e f g h i
    refine ⟨rfl, ?_, ?_, ?_, ?_, ?_, ?_⟩
    · show pdivN a (a + d + g) = pdivN a (a + (d + g))
      exact pdivN_congr (by omega)
    · show pdivN a (a + b + c) = pdivN a (a + (b + c))
      exact pdivN_congr (by omega)
    · show pdivN e (e + b + h) = pdivN e (b + (e + h))
      exact pdivN_congr (by omega)
    · show pdivN e (e + d + f) = pdivN e (d + (e + f))
      exact pdivN_congr (by omega)
    · show pdivN i (i + f + c) = pdivN i (c + (f + i))
      exact pdivN_congr (by omega)
    · show pdivN i (i + g + h) = pdivN i (g + (h + i))
      exact pdivN_congr (by omega)
  · intro x00 x01 x02 x03 x04 x10 x11 x12 x13 x14 x20 x21 x22 x23 x24
      x30 x31 x32 x33 x34 x40 x41 x42 x43 x44
    refine ⟨rfl, ?_⟩
    rintro M rfl
    refine ⟨?_, ?_, ?_, ?_, ?_, ?_, ?_, ?_, ?_, ?_⟩
    · show pdivN x00 (x00 + x10 + x20 + x30 + x40) =
        pdivN x00 (x00 + (x10 + (x20 + (x30 + x40))))
      exact pdivN_congr (by omega)
    · show pdivN x00 (x00 + x01 + x02 + x03 + x04) =
        pdivN x00 (x00 + (x01 + (x02 + (x03 + x04))))
      exact pdivN_congr (by omega)
    · show pdivN x11 (x11 + x01 + x21 + x31 + x41) =
        pdivN x11 (x01 + (x11 + (x21 + (x31 + x41))))
      exact pdivN_congr (by omega)
    · show pdivN x11 (x11 + x10 + x12 + x13 + x14) =
        pdivN x11 (x10 + (x11 + (x12 + (x13 + x14))))
      exact pdivN_congr (by omega)
    · show pdivN x22 (x22 + x02 + x12 + x32 + x42) =
        pdivN x22 (x02 + (x12 + (x22 + (x32 + x42))))
      exact pdivN_congr (by omega)
    · show pdivN x22 (x22 + x20 + x21 + x23 + x24) =
        pdivN x22 (x20 + (x21 + (x22 + (x23 + x24))))
      exact pdivN_congr (by omega)
    · show pdivN x33 (x33 + x03 + x13 + x23 + x43) =
        pdivN x33 (x03 + (x13 + (x23 + (x33 + x43))))
      exact pdivN_congr (by omega)
    · show pdivN x33 (x33 + x30 + x31 + x32 + x34) =
        pdivN x33 (x30 + (x31 + (x32 + (x33 + x34))))
      exact pdivN_congr (by omega)
    · show pdivN x44 (x44 + x04 + x14 + x24 + x34) =
        pdivN x44 (x04 + (x14 + (x24 + (x34 + x44))))
      exact pdivN_congr (by omega)
    · show pdivN x44 (x44 + x40 + x41 + x42 + x43) =
        pdivN x44 (x40 + (x41 + (x42 + (x43 + x44))))
      exact pdivN_congr (by omega)
  · intro accs c1p c1r c1f c2p c2r c2f c3p c3r c3f
    exact ⟨rfl, rfl, rfl⟩
  · intro negT posT clean c rating rest
    refine ⟨fun h => ?_, fun h1 h2 => ?_, fun hlt h => ?_⟩
    · have hcond : ¬(negT < rating ∧ rating < posT) :=
        fun hc => absurd hc.1 (not_lt.mpr h)
      simp only [preprocess3, if_neg hcond, if_pos h]
    · simp only [preprocess3, if_pos (And.intro h1 h2)]
    · have hcond : ¬(negT < rating ∧ rating < posT) :=
        fun hc => absurd hc.2 (not_lt.mpr h)
      have hneg : ¬(rating ≤ negT) := not_le.mpr (lt_of_lt_of_le hlt h)
      simp only [preprocess3, if_neg hcond, if_neg hneg]

/-- Claim C6 witness: the amended claim applied at concrete inputs —
the 2-class slots at the matrix `[[3,1],[2,4]]` and the 3-class
labeling of a neutral record under the default thresholds. -/
theorem claim_C6_witness :
    (mkMetrics2 3 1 2 4).precision2 = specPrecision [[3, 1], [2, 4]] 2 0 ∧
    (preprocess3 2 4 id [⟨some "ok", 3⟩]).target =
      1 :: (preprocess3 2 4 id ([] : List Review)).target := by
  constructor
  · exact (claim_C6_amended.1 3 1 2 4).2.2.2.1
  · exact (claim_C6_amended.2.2.2.2 2 4 id "ok" 3 []).2.1
      (by norm_num) (by norm_num)

/-- Claim C7: in 2-class mode, under the configuration invariant
`negative_threshold < positive_threshold`, a record with a valid
comment is labeled `0` when `rating ≤ negative_threshold`, labeled `1`
when `rating ≥ positive_threshold`, and dropped entirely (its cleaned
comment and its label are absent from the returned data/target, only
the neutral counter moves) when the rating lies strictly between the
thresholds. -/
theorem claim_C7 :
    ∀ (negT posT : ℚ) (clean : String → String) (c : String) (rating : ℚ)
      (rest : List Review), negT < posT →
      (rating ≤ negT →
        preprocess2 negT posT clean (⟨some c, rating⟩ :: rest) =
          ⟨clean c :: (preprocess2 negT posT clean rest).data,
           0 :: (preprocess2 negT posT clean rest).target,
           (preprocess2 negT posT clean rest).num_pos,
           (preprocess2 negT posT clean rest).num_neg + 1,
           (preprocess2 negT posT clean rest).num_neut⟩) ∧
      (posT ≤ rating →
        preprocess2 negT posT clean (⟨some c, rating⟩ :: rest) =
          ⟨clean c :: (preprocess2 negT posT clean rest).data,
           1 :: (preprocess2 negT posT clean rest).target,
           (preprocess2 negT posT clean rest).num_pos + 1,
           (preprocess2 negT posT clean rest).num_neg,
           (preprocess2 negT posT clean rest).num_neut⟩) ∧
      (negT < rating → rating < posT →
        preprocess2 negT posT clean (⟨some c, rating⟩ :: rest) =
          ⟨(preprocess2 negT posT clean rest).data,
           (preprocess2 negT posT clean rest).target,
           (preprocess2 negT posT clean rest).num_pos,
           (preprocess2 negT posT clean rest).num_neg,
           (preprocess2 negT posT clean rest).num_neut + 1⟩) := by
  intro negT posT clean c rating rest hlt
  refine ⟨fun h => ?_, fun h => ?_, fun h1 h2 => ?_⟩
  · have hcond : ¬(negT < rating ∧ rating < posT) :=
      fun hc => absurd hc.1 (not_lt.mpr h)
    simp only [preprocess2, if_neg hcond, if_pos h]
  · have hcond : ¬(negT < rating ∧ rating < posT) :=
      fun hc => absurd hc.2 (not_lt.mpr h)
    have hneg : ¬(rating ≤ negT) := not_le.mpr (lt_of_lt_of_le hlt h)
    simp only [preprocess2, if_neg hcond, if_neg hneg]
  · simp only [preprocess2, if_pos (And.intro h1 h2)]

/-- Claim C7 witness: under the default thresholds `2.0` and `4.0`,
rating `3` is dropped, rating `2` maps to class `0`, and rating `4`
maps to class `1`. -/
theorem claim_C7_witness :
    preprocess2 2 4 id [⟨some "ok", (3 : ℚ)⟩] = ⟨[], [], 0, 0, 1⟩ ∧
    preprocess2 2 4 id [⟨some "ok", (2 : ℚ)⟩] = ⟨[id "ok"], [0], 0, 1, 0⟩ ∧
    preprocess2 2 4 id [⟨some "ok", (4 : ℚ)⟩] = ⟨[id "ok"], [1], 1, 0, 0⟩ := by
  refine ⟨?_, ?_, ?_⟩
  · exact (claim_C7 2 4 id "ok" 3 [] (by norm_num)).2.2
      (by norm_num) (by norm_num)
  · exact (claim_C7 2 4 id "ok" 2 [] (by norm_num)).1 (by norm_num)
  · exact (claim_C7 2 4 id "ok" 4 [] (by norm_num)).2.1 (by norm_num)

/-- Claim C8 counterexample: constructing the classifier with
`negative_threshold = 5 ≥ 1 = positive_threshold` succeeds and stores
the inverted pair verbatim, and labeling under the inverted pair also
succeeds (rating `3` is labeled `0`); no error is surfaced at
construction or at labeling. -/
theorem claim_C8_cex :
    initCfg (some 5) (some 1) = ⟨5, 1⟩ ∧
    preprocess2 5 1 id [⟨some "ok", (3 : ℚ)⟩] = ⟨[id "ok"], [0], 0, 1, 0⟩ := by
  constructor
  · norm_num [initCfg]
  · have hcond : ¬((5 : ℚ) < 3 ∧ (3 : ℚ) < 1) := by norm_num
    simp only [preprocess2, if_neg hcond, if_pos (by norm_num : (3 : ℚ) ≤ 5)]

/-- Claim C8 (amended): `__init__` performs no validation of the
threshold pair — any truthy values, including an inverted pair with
`negative_threshold ≥ positive_threshold`, are stored verbatim (falsy
`None`/`0.0` silently keep the defaults `2.0`/`4.0`), and preprocessing
runs without error under an inverted pair. -/
theorem claim_C8_amended :
    (∀ a b : ℚ, a ≠ 0 → b ≠ 0 → initCfg (some a) (some b) = ⟨a, b⟩) ∧
    initCfg none none = ⟨2, 4⟩ ∧
    (∀ clean : String → String,
      preprocess2 5 1 clean [⟨some "x", (3 : ℚ)⟩] =
        ⟨[clean "x"], [0], 0, 1, 0⟩) := by
  refine ⟨?_, rfl, ?_⟩
  · intro a b ha hb
    simp [initCfg, ha, hb]
  · intro clean
    have hcond : ¬((5 : ℚ) < 3 ∧ (3 : ℚ) < 1) := by norm_num
    simp only [preprocess2, if_neg hcond, if_pos (by norm_num : (3 : ℚ) ≤ 5)]

/-- Claim C8 witness: the amended claim applied to the inverted pair
`(7, 3)`, which is accepted verbatim. -/
theorem claim_C8_witness : initCfg (some 7) (some 3) = ⟨7, 3⟩ :=
  claim_C8_amended.1 7 3 (by norm_num) (by norm_num)

/-- Claim C9 counterexample: a run over the single malformed record
`⟨none, 5⟩` (missing comment text) returns exactly the same output —
including the `info` counters — as a run over the empty input, so no
count of skipped records is surfaced to the caller. -/
theorem claim_C9_cex :
    preprocess2 2 4 id [⟨none, (5 : ℚ)⟩] = ⟨[], [], 0, 0, 0⟩ ∧
    preprocess2 2 4 id ([] : List Review) = ⟨[], [], 0, 0, 0⟩ :=
  ⟨rfl, rfl⟩

/-- Claim C9 (amended): in every class-count mode a record whose
comment is not a string is skipped without failing, but silently — the
whole output, the `positive`/`negative`/`neutral` counters of `info`
included, is as if the record had not been present, so no skipped-record
count is surfaced. -/
theorem claim_C9_amended :
    ∀ (negT posT : ℚ) (clean : String → String) (r : Review)
      (rest : List Review), r.comment = none →
      preprocess2 negT posT clean (r :: rest) =
        preprocess2 negT posT clean rest ∧
      preprocess3 negT posT clean (r :: rest) =
        preprocess3 negT posT clean rest ∧
      preprocess5 clean (r :: rest) = preprocess5 clean rest := by
  intro negT posT clean r rest h
  obtain ⟨comment, rating⟩ := r
  simp only at h
  subst h
  exact ⟨rfl, rfl, rfl⟩

/-- Claim C9 witness: the amended claim applied to a concrete malformed
record in front of an empty tail. -/
theorem claim_C9_witness :
    preprocess2 2 4 id [⟨none, (1 : ℚ)⟩] = preprocess2 2 4 id [] ∧
    preprocess3 2 4 id [⟨none, (1 : ℚ)⟩] = preprocess3 2 4 id [] ∧
    preprocess5 id [⟨none, (1 : ℚ)⟩] = preprocess5 id [] :=
  claim_C9_amended 2 4 id ⟨none, 1⟩ [] rfl

/-- Claim C10: if the actual and predicted sequences jointly contain at
least one label but fewer distinct labels than the requested class
count, `metrics` fails with an index error (modeled as `none`) instead
of returning metrics: the confusion matrix sklearn builds has one
row/column per *observed* label and is then smaller than
`num × num`, so unpacking its cells goes out of range. -/
theorem claim_C10 :
    ∀ actual predicted : List ℤ,
      0 < (sortedLabels (actual ++ predicted)).length →
      ((sortedLabels (actual ++ predicted)).length < 2 →
        metrics2 actual predicted = none) ∧
      ((sortedLabels (actual ++ predicted)).length < 3 →
        metrics3 actual predicted = none) ∧
      ((sortedLabels (actual ++ predicted)).length < 5 →
        metrics5 actual predicted = none) := by
  intro actual predicted _
  have hlen : (confusionMatrix actual predicted).length =
      (sortedLabels (actual ++ predicted)).length := by
    simp [confusionMatrix]
  refine ⟨fun h => ?_, fun h => ?_, fun h => ?_⟩
  · have hm : hasSquare (confusionMatrix actual predicted) 2 = false :=
      hasSquare_eq_false (by omega)
    simp [metrics2, metricsCore2, hm]
  · have hm : hasSquare (confusionMatrix actual predicted) 3 = false :=
      hasSquare_eq_false (by omega)
    simp [metrics3, metricsCore3, hm]
  · have hm : hasSquare (confusionMatrix actual predicted) 5 = false :=
      hasSquare_eq_false (by omega)
    simp [metrics5, metricsCore5, hm]

/-- Claim C10 witness: with a single observed class (`actual =
predicted = [1,1]`), every mode fails to return metrics. -/
theorem claim_C10_witness :
    metrics2 [1, 1] [1, 1] = none ∧ metrics3 [1, 1] [1, 1] = none ∧
    metrics5 [1, 1] [1, 1] = none := by
  have h := claim_C10 [1, 1] [1, 1] (by decide)
  exact ⟨h.1 (by decide), h.2.1 (by decide), h.2.2 (by decide)⟩

/-- Claim C2 counterexample: `evaluate_average_accuracy` reports the
per-fold accuracies `[1/2, 1]` raw but reports `average_accuracy = 75`,
which is `100 ×`, not equal to, their arithmetic mean `3/4`; the CNN
`evaluate_k_fold` on three folds of accuracy `1` reports average `3/5`
(the total divided by the literal 5), not the fold mean `1`. -/
theorem claim_C2_cex :
    (mkReport2 [1/2, 1] [1] [1] [1] [1] [1] [1]).accuracies = [1/2, 1] ∧
    (mkReport2 [1/2, 1] [1] [1] [1] [1] [1] [1]).average_accuracy = 75 ∧
    npMean [1/2, 1] = 3/4 ∧ (75 : ℚ) ≠ 3/4 ∧
    cnnKFoldAverages [(1, 1, 1), (1, 1, 1), (1, 1, 1)] =
      (3/5, 3/5, 3/5) ∧
    npMean [1, 1, 1] = 1 ∧ (3/5 : ℚ) ≠ 1 := by
  refine ⟨rfl, ?_, ?_, by norm_num, ?_, ?_, by norm_num⟩
  · show npMean [1/2, 1] * 100 = 75
    norm_num [npMean]
  · norm_num [npMean]
  · simp only [cnnKFoldAverages, List.foldl]
    norm_num
  · norm_num [npMean]

/-- The running totals of the CNN cross-validation loop are the
componentwise sums of the per-fold results. -/
lemma cnnTotals (l : List (ℚ × ℚ × ℚ)) (p : ℚ × ℚ × ℚ) :
    l.foldl (fun acc r => (acc.1 + r.1, acc.2.1 + r.2.1, acc.2.2 + r.2.2))
      p =
    (p.1 + (l.map fun r => r.1).sum, p.2.1 + (l.map fun r => r.2.1).sum,
     p.2.2 + (l.map fun r => r.2.2).sum) := by
  induction l generalizing p with
  | nil => simp
  | cons hd tl ih => simp [ih, add_assoc]

/-- Claim C2 (amended): in `evaluate_average_accuracy` each reported
`average_*` entry equals `100 ×` the arithmetic mean of the per-fold
sequence reported alongside it (the sequences are raw, the averages
percentages); the CNN `evaluate_k_fold` reports each average as the
per-fold total divided by the literal constant `5` whatever the number
of folds, which coincides with the fold mean exactly when there are
five folds. -/
theorem claim_C2_amended :
    (∀ accs c1p c1r c1f c2p c2r c2f : List ℚ,
      (mkReport2 accs c1p c1r c1f c2p c2r c2f).average_accuracy =
        npMean (mkReport2 accs c1p c1r c1f c2p c2r c2f).accuracies * 100 ∧
      (mkReport2 accs c1p c1r c1f c2p c2r c2f).average_positive_precision =
        npMean (mkReport2 accs c1p c1r c1f c2p c2r c2f).positive_precisions
          * 100 ∧
      (mkReport2 accs c1p c1r c1f c2p c2r c2f).average_positive_recall =
        npMean (mkReport2 accs c1p c1r c1f c2p c2r c2f).positive_recalls
          * 100 ∧
      (mkReport2 accs c1p c1r c1f c2p c2r c2f).average_positive_f1_score =
        npMean (mkReport2 accs c1p c1r c1f c2p c2r c2f).positive_f1_scores
          * 100 ∧
      (mkReport2 accs c1p c1r c1f c2p c2r c2f).average_negative_precision =
        npMean (mkReport2 accs c1p c1r c1f c2p c2r c2f).negative_precisions
          * 100 ∧
      (mkReport2 accs c1p c1r c1f c2p c2r c2f).average_negative_recall =
        npMean (mkReport2 accs c1p c1r c1f c2p c2r c2f).negative_recalls
          * 100 ∧
      (mkReport2 accs c1p c1r c1f c2p c2r c2f).average_negative_f1_score =
        npMean (mkReport2 accs c1p c1r c1f c2p c2r c2f).negative_f1_scores
          * 100) ∧
    (∀ l : List (ℚ × ℚ × ℚ),
      cnnKFoldAverages l =
        ((l.map fun r => r.1).sum / 5, (l.map fun r => r.2.1).sum / 5,
         (l.map fun r => r.2.2).sum / 5)) ∧
    (∀ l : List (ℚ × ℚ × ℚ), l.length = 5 →
      cnnKFoldAverages l =
        (npMean (l.map fun r => r.1), npMean (l.map fun r => r.2.1),
         npMean (l.map fun r => r.2.2))) := by
  refine ⟨?_, ?_, ?_⟩
  · intro accs c1p c1r c1f c2p c2r c2f
    exact ⟨rfl, rfl, rfl, rfl, rfl, rfl, rfl⟩
  · intro l
    simp [cnnKFoldAverages, cnnTotals]
  · intro l hlen
    simp [cnnKFoldAverages, cnnTotals, npMean, hlen]

/-- Claim C2 witness: the CNN average equals the fold mean on a run
with exactly five folds. -/
theorem claim_C2_witness :
    cnnKFoldAverages [(1, 0, 0), (1, 0, 0), (1, 0, 0), (1, 0, 0), (1, 0, 0)] =
      (npMean ([(1, 0, 0), (1, 0, 0), (1, 0, 0), (1, 0, 0),
        (1, 0, 0)].map fun r => r.1),
       npMean ([(1, 0, 0), (1, 0, 0), (1, 0, 0), (1, 0, 0),
        (1, 0, 0)].map fun r => r.2.1),
       npMean ([(1, 0, 0), (1, 0, 0), (1, 0, 0), (1, 0, 0),
        (1, 0, 0)].map fun r => r.2.2)) :=
  claim_C2_amended.2.2
    [(1, 0, 0), (1, 0, 0), (1, 0, 0), (1, 0, 0), (1, 0, 0)] rfl

end Medinify
